import Mathlib

/-!
Shallow embedding of the bookstore integration API
(`src/app.py`, `src/services/inventory_service.py`,
`src/services/sales_service.py`, `src/services/delivery_service.py`).

Python dictionaries holding books, orders and deliveries become Lean
structures; the three in-memory stores become lists threaded through an
explicit `AppState`; `uuid.uuid4()` becomes a counter-based fresh-name
supply; Python truthiness on request fields is made explicit
(`none`, the empty string and the integer 0 are the falsy values the
handlers actually test).
-/

namespace Bookstore

/-- A book record from `mock_data/inventory.json`: identifier, a
representative descriptive field, and the stock count (Python ints are
unbounded and may go negative, hence `Int`). -/
structure Book where
  id : String
  title : String
  stock : Int
deriving Repr, DecidableEq

/-- An order record as built by `SalesService.create_order`. -/
structure Order where
  order_id : String
  book_id : String
  quantity : Int
  customer : String
  status : String
deriving Repr, DecidableEq

/-- A delivery record as built by `DeliveryService.record_delivery`. -/
structure Delivery where
  delivery_id : String
  order_id : String
  address : String
  status : String
deriving Repr, DecidableEq

/-- The process-wide mutable state: the three in-memory stores plus a
counter standing in for the uuid generator. -/
structure AppState where
  inventory : List Book
  sales : List Order
  deliveries : List Delivery
  nextUuid : Nat
deriving Repr, DecidableEq

/-- Stand-in for `str(uuid.uuid4())`: a fresh string per counter value. -/
def uuidString (n : Nat) : String :=
  "uuid-" ++ toString n

/-- `InventoryService.get_book`: first book whose `id` matches, else none. -/
def get_book (inventory : List Book) (book_id : String) : Option Book :=
  inventory.find? (fun b => b.id == book_id)

/-- `InventoryService.is_in_stock`: `book and book["stock"] >= qty`;
falsy (modelled `false`) when the book is missing. -/
def is_in_stock (inventory : List Book) (book_id : String) (qty : Int) : Bool :=
  match get_book inventory book_id with
  | none => false
  | some b => qty ≤ b.stock

/-- `InventoryService.reduce_stock`: mutate the first book whose `id`
matches (the dict `get_book` returns) in place, decrementing its stock;
do nothing when no book matches. -/
def reduce_stock (inventory : List Book) (book_id : String) (qty : Int) : List Book :=
  match inventory with
  | [] => []
  | b :: rest =>
    if b.id == book_id then { b with stock := b.stock - qty } :: rest
    else b :: reduce_stock rest book_id qty

/-- `SalesService.create_order`: build the order with a fresh id and
status `"PAID"`, append it to the ledger, return it. -/
def create_order (sales : List Order) (uuid : Nat) (book_id : String)
    (qty : Int) (customer : String) : Order × List Order :=
  let o : Order :=
    { order_id := uuidString uuid, book_id := book_id, quantity := qty,
      customer := customer, status := "PAID" }
  (o, sales ++ [o])

/-- `DeliveryService.record_delivery`: build the delivery with a fresh id
and status `"READY_FOR_DISPATCH"`, append it, return it. -/
def record_delivery (deliveries : List Delivery) (uuid : Nat)
    (order_id : String) (address : String) : Delivery × List Delivery :=
  let d : Delivery :=
    { delivery_id := uuidString uuid, order_id := order_id,
      address := address, status := "READY_FOR_DISPATCH" }
  (d, deliveries ++ [d])

/-- JSON body of `POST /api/orders`; each field is absent or present. -/
structure OrderRequest where
  book_id : Option String
  quantity : Option Int
  customer : Option String
deriving Repr, DecidableEq

/-- JSON body of `POST /api/delivery/update`. -/
structure DeliveryRequest where
  order_id : Option String
  address : Option String
deriving Repr, DecidableEq

/-- Bodies the handlers return via `jsonify`. -/
inductive RespBody where
  | message (s : String)
  | error (s : String)
  | order (o : Order)
  | book (b : Book)
  | books (bs : List Book)
  | delivery (d : Delivery)
deriving Repr, DecidableEq

/-- An HTTP response: status code and JSON body. -/
structure Response where
  status : Nat
  body : RespBody
deriving Repr, DecidableEq

/-- Python truthiness of an optional string field: `None` and `""` are
falsy. -/
def falsyStr : Option String → Bool
  | none => true
  | some s => s == ""

/-- Python truthiness of an optional integer field: `None` and `0` are
falsy. -/
def falsyInt : Option Int → Bool
  | none => true
  | some n => n == 0

/-- Handler `place_order` in `app.py` (after the api-key check): validate
body presence, field truthiness, stock sufficiency; then create the order
and decrement stock, in that sequence. -/
def place_order (s : AppState) (data : Option OrderRequest) :
    Response × AppState :=
  match data with
  | none => (⟨400, .error "JSON body is required"⟩, s)
  | some d =>
    if falsyStr d.book_id || falsyInt d.quantity || falsyStr d.customer then
      (⟨400, .error "Missing fields: book_id, quantity, customer"⟩, s)
    else
      let book_id := d.book_id.getD ""
      let qty := d.quantity.getD 0
      let customer := d.customer.getD ""
      if !is_in_stock s.inventory book_id qty then
        (⟨400, .error "Insufficient stock"⟩, s)
      else
        let p := create_order s.sales s.nextUuid book_id qty customer
        let inv := reduce_stock s.inventory book_id qty
        (⟨201, .order p.1⟩,
         { s with sales := p.2, inventory := inv, nextUuid := s.nextUuid + 1 })

/-- Handler `get_all_books`: return the whole inventory. -/
def get_all_books (s : AppState) : Response × AppState :=
  (⟨200, .books s.inventory⟩, s)

/-- Handler `get_book_details`: the book, or a 404. -/
def get_book_details (s : AppState) (book_id : String) :
    Response × AppState :=
  match get_book s.inventory book_id with
  | none => (⟨404, .error "Book not found"⟩, s)
  | some b => (⟨200, .book b⟩, s)

/-- Handler `update_delivery`: validate body and fields, then record. -/
def update_delivery (s : AppState) (data : Option DeliveryRequest) :
    Response × AppState :=
  match data with
  | none => (⟨400, .error "JSON body is required"⟩, s)
  | some d =>
    if falsyStr d.order_id || falsyStr d.address then
      (⟨400, .error "Missing fields: order_id, address"⟩, s)
    else
      let p := record_delivery s.deliveries s.nextUuid
        (d.order_id.getD "") (d.address.getD "")
      (⟨201, .delivery p.1⟩,
       { s with deliveries := p.2, nextUuid := s.nextUuid + 1 })

/-- Handler `home`: status message, registered without the auth wrapper. -/
def home (s : AppState) : Response × AppState :=
  (⟨200, .message "Bookstore Integration API Running"⟩, s)

/-- The routes the app registers. -/
inductive Route where
  | getAllBooks
  | getBookDetails (book_id : String)
  | placeOrder (data : Option OrderRequest)
  | updateDelivery (data : Option DeliveryRequest)
  | homeRoute
deriving Repr, DecidableEq

/-- Whether a route is wrapped in `require_api_key`. -/
def isProtected : Route → Bool
  | .homeRoute => false
  | _ => true

/-- Decorator `require_api_key`: the `x-api-key` header (absent modelled
as `none`) must equal the configured key, else 401 and the wrapped
handler never runs. -/
def require_api_key (api_key : String) (header : Option String)
    (handler : AppState → Response × AppState) (s : AppState) :
    Response × AppState :=
  if header == some api_key then handler s
  else (⟨401, .error "Unauthorized - Invalid API Key"⟩, s)

/-- The app's dispatch: route a request (with its `x-api-key` header) to
its handler, through the auth decorator where registered. -/
def handle (api_key : String) (header : Option String) (r : Route)
    (s : AppState) : Response × AppState :=
  match r with
  | .getAllBooks => require_api_key api_key header get_all_books s
  | .getBookDetails bid =>
      require_api_key api_key header (fun st => get_book_details st bid) s
  | .placeOrder d =>
      require_api_key api_key header (fun st => place_order st d) s
  | .updateDelivery d =>
      require_api_key api_key header (fun st => update_delivery st d) s
  | .homeRoute => home s

/-- Run a sequence of requests, threading the state. -/
def run (api_key : String) (s : AppState)
    (reqs : List (Option String × Route)) : AppState :=
  reqs.foldl (fun st p => (handle api_key p.1 p.2 st).2) s

/-- All stocks non-negative, the inventory invariant of the spec. -/
def stocksNonneg (s : AppState) : Prop :=
  ∀ b ∈ s.inventory, 0 ≤ b.stock

instance (s : AppState) : Decidable (stocksNonneg s) := by
  unfold stocksNonneg; infer_instance

/-- The seed data of the running example in the spec: book `b1` with
stock 5, plus a second book; empty sales and delivery ledgers. -/
def seedBooks : List Book :=
  [⟨"b1", "Clean Code", 5⟩, ⟨"b2", "Refactoring", 3⟩]

/-- Initial state built from the seed data. -/
def seedState : AppState :=
  ⟨seedBooks, [], [], 0⟩

/-! ## Helper lemmas -/

theorem get_book_reduce_stock (inventory : List Book) (book_id : String)
    (qty : Int) (b : Book) (h : get_book inventory book_id = some b) :
    get_book (reduce_stock inventory book_id qty) book_id =
      some { b with stock := b.stock - qty } := by
  induction inventory with
  | nil => simp [get_book] at h
  | cons c rest ih =>
    by_cases hc : c.id = book_id
    · simp [get_book, List.find?_cons, hc] at h
      subst h
      simp [reduce_stock, get_book, List.find?_cons, hc]
    · simp [get_book, List.find?_cons, hc] at h
      simp [reduce_stock, get_book, List.find?_cons, hc]
      exact ih h

theorem reduce_stock_of_not_mem (inventory : List Book) (book_id : String)
    (qty : Int) (h : ∀ b ∈ inventory, b.id ≠ book_id) :
    reduce_stock inventory book_id qty = inventory := by
  induction inventory with
  | nil => rfl
  | cons c rest ih =>
    have hc : c.id ≠ book_id := h c (List.mem_cons_self c rest)
    simp [reduce_stock, hc]
    exact ih (fun x hx => h x (List.mem_cons_of_mem c hx))

theorem reduce_stock_eq_set (inventory : List Book) (book_id : String)
    (qty : Int) (j : Nat) (hj : j < inventory.length)
    (hid : inventory[j].id = book_id)
    (hfirst : ∀ i, (hi : i < inventory.length) → i < j →
      inventory[i].id ≠ book_id) :
    reduce_stock inventory book_id qty =
      inventory.set j { inventory[j] with stock := inventory[j].stock - qty } := by
  induction inventory generalizing j with
  | nil => simp at hj
  | cons c rest ih =>
    cases j with
    | zero =>
      simp at hid
      simp [reduce_stock, hid]
    | succ j =>
      have hc : c.id ≠ book_id := hfirst 0 (by omega) (by omega)
      simp at hid
      simp [reduce_stock, hc]
      exact ih j (by simpa using hj) hid
        (fun i hi hij => by
          have := hfirst (i + 1) (by simpa using Nat.succ_lt_succ hi)
            (Nat.succ_lt_succ hij)
          simpa using this)

/-! ## Claims -/

/-- Claim C5: `is_in_stock` returns true iff a book with the given id
exists and its stock is at least the requested quantity; when the book
does not exist it returns falsy, not an error. -/
theorem is_in_stock_correct (inventory : List Book) (book_id : String)
    (qty : Int) :
    (is_in_stock inventory book_id qty = true ↔
      ∃ b, get_book inventory book_id = some b ∧ qty ≤ b.stock) ∧
    (get_book inventory book_id = none →
      is_in_stock inventory book_id qty = false) := by
  constructor
  · unfold is_in_stock
    cases h : get_book inventory book_id with
    | none => simp
    | some b => simp
  · intro h
    simp [is_in_stock, h]

/-- Witness for C5 at a concrete input: the empty inventory has no book
`"b1"`, and `is_in_stock` reports false there. -/
theorem is_in_stock_correct_witness :
    is_in_stock [] "b1" 3 = false :=
  (is_in_stock_correct [] "b1" 3).2 rfl

/-- Claim C9: `reduce_stock` is a no-op when no book matches, and
otherwise rewrites exactly the first matching book's entry, changing only
its `stock` field (by exactly `qty`) and no other book. -/
theorem reduce_stock_frame (inventory : List Book) (book_id : String)
    (qty : Int) :
    ((∀ b ∈ inventory, b.id ≠ book_id) →
      reduce_stock inventory book_id qty = inventory) ∧
    (∀ j, (hj : j < inventory.length) → inventory[j].id = book_id →
      (∀ i, (hi : i < inventory.length) → i < j →
        inventory[i].id ≠ book_id) →
      reduce_stock inventory book_id qty =
        inventory.set j
          { inventory[j] with stock := inventory[j].stock - qty }) :=
  ⟨reduce_stock_of_not_mem inventory book_id qty,
   fun j hj hid hfirst =>
     reduce_stock_eq_set inventory book_id qty j hj hid hfirst⟩

/-- Witness for C9 at a concrete input: on the seed inventory, reducing
book `"b2"` by 2 rewrites only the second entry, and reducing an unknown
id is the identity. -/
theorem reduce_stock_frame_witness :
    reduce_stock seedBooks "zzz" 2 = seedBooks ∧
    (1 < seedBooks.length ∧
      reduce_stock seedBooks "b2" 2 =
        [⟨"b1", "Clean Code", 5⟩, ⟨"b2", "Refactoring", 1⟩]) := by
  constructor
  · exact (reduce_stock_frame seedBooks "zzz" 2).1 (by decide)
  · refine ⟨by decide, ?_⟩
    have h := (reduce_stock_frame seedBooks "b2" 2).2 1 (by decide) (by decide)
      (fun i hi hij => by
        have hi0 : i = 0 := by omega
        subst hi0; simp [seedBooks])
    rw [h]; rfl

theorem is_in_stock_of_found (inventory : List Book) (book_id : String)
    (qty : Int) (b : Book) (hfind : get_book inventory book_id = some b)
    (hstock : qty ≤ b.stock) :
    is_in_stock inventory book_id qty = true := by
  unfold is_in_stock
  rw [hfind]
  simpa using hstock

/-- Claim C1: for every state and valid input whose book exists with
sufficient stock, `place_order` answers 201 with a new PAID order carrying
the inputs, appends it to the sales ledger, and decrements that book's
stock by exactly the quantity. -/
theorem place_order_success (s : AppState) (book_id : String) (qty : Int)
    (customer : String) (b : Book)
    (hbid : book_id ≠ "") (hq : 0 < qty) (hcust : customer ≠ "")
    (hfind : get_book s.inventory book_id = some b)
    (hstock : qty ≤ b.stock) :
    ∃ o : Order,
      place_order s (some ⟨some book_id, some qty, some customer⟩) =
        (⟨201, .order o⟩,
         { s with
            sales := s.sales ++ [o],
            inventory := reduce_stock s.inventory book_id qty,
            nextUuid := s.nextUuid + 1 }) ∧
      o.book_id = book_id ∧ o.quantity = qty ∧ o.customer = customer ∧
      o.status = "PAID" ∧
      get_book
        (place_order s (some ⟨some book_id, some qty, some customer⟩)).2.inventory
        book_id = some { b with stock := b.stock - qty } := by
  have h1 : falsyStr (some book_id) = false := by simp [falsyStr, hbid]
  have h2 : falsyInt (some qty) = false := by
    simp only [falsyInt]
    simpa using by omega
  have h3 : falsyStr (some customer) = false := by simp [falsyStr, hcust]
  have h4 : is_in_stock s.inventory book_id qty = true :=
    is_in_stock_of_found s.inventory book_id qty b hfind hstock
  refine ⟨⟨uuidString s.nextUuid, book_id, qty, customer, "PAID"⟩, ?_, rfl,
    rfl, rfl, rfl, ?_⟩
  · simp [place_order, h1, h2, h3, h4, create_order]
  · simp [place_order, h1, h2, h3, h4, create_order]
    exact get_book_reduce_stock s.inventory book_id qty b hfind

/-- Witness for C1 at the spec's running example: ordering 5 copies of
`"b1"` (stock 5) for `"alice"` from the seed state succeeds and drives the
stock to 0. -/
theorem place_order_success_witness :
    ∃ o : Order,
      place_order seedState (some ⟨some "b1", some 5, some "alice"⟩) =
        (⟨201, .order o⟩,
         { seedState with
            sales := seedState.sales ++ [o],
            inventory := reduce_stock seedState.inventory "b1" 5,
            nextUuid := seedState.nextUuid + 1 }) ∧
      o.book_id = "b1" ∧ o.quantity = 5 ∧ o.customer = "alice" ∧
      o.status = "PAID" ∧
      get_book
        (place_order seedState (some ⟨some "b1", some 5, some "alice"⟩)).2.inventory
        "b1" = some ⟨"b1", "Clean Code", 0⟩ :=
  place_order_success seedState "b1" 5 "alice" ⟨"b1", "Clean Code", 5⟩
    (by decide) (by decide) (by decide) (by rfl) (by decide)

theorem place_order_missing_fields_eq (s : AppState) (d : OrderRequest)
    (h : (falsyStr d.book_id || falsyInt d.quantity || falsyStr d.customer)
      = true) :
    place_order s (some d) =
      (⟨400, .error "Missing fields: book_id, quantity, customer"⟩, s) := by
  simp [place_order, h]

theorem place_order_not_in_stock_eq (s : AppState) (book_id : String)
    (qty : Int) (customer : String)
    (hbid : book_id ≠ "") (hq : qty ≠ 0) (hcust : customer ≠ "")
    (hnostock : is_in_stock s.inventory book_id qty = false) :
    place_order s (some ⟨some book_id, some qty, some customer⟩) =
      (⟨400, .error "Insufficient stock"⟩, s) := by
  have h1 : falsyStr (some book_id) = false := by simp [falsyStr, hbid]
  have h2 : falsyInt (some qty) = false := by simp [falsyInt, hq]
  have h3 : falsyStr (some customer) = false := by simp [falsyStr, hcust]
  simp [place_order, h1, h2, h3, hnostock]

theorem is_in_stock_eq_false_of_cause (inventory : List Book)
    (book_id : String) (qty : Int)
    (hcause : get_book inventory book_id = none ∨
      ∃ b, get_book inventory book_id = some b ∧ b.stock < qty) :
    is_in_stock inventory book_id qty = false := by
  rcases hcause with h | ⟨b, hb, hlt⟩
  · simp [is_in_stock, h]
  · simp [is_in_stock, hb]
    omega

/-- Counterexample to claim C2 as stated: the request
`{book_id: "zzz", quantity: 0, customer: "alice"}` has a book id matching
no book of the seed inventory, yet `place_order` answers with the
missing-fields error, not the insufficient-stock error (0 is falsy). -/
theorem place_order_insufficient_cx :
    get_book seedState.inventory "zzz" = none ∧
    (place_order seedState (some ⟨some "zzz", some 0, some "alice"⟩)).1 =
      ⟨400, .error "Missing fields: book_id, quantity, customer"⟩ ∧
    (place_order seedState (some ⟨some "zzz", some 0, some "alice"⟩)).1 ≠
      ⟨400, .error "Insufficient stock"⟩ := by
  refine ⟨rfl, rfl, ?_⟩
  decide

/-- Claim C2 (amended): for every request that passes the truthiness
validation of the three fields, if the book is unknown or its stock is
below the quantity, `place_order` answers 400 Insufficient stock and the
whole state is unchanged. -/
theorem place_order_insufficient (s : AppState) (book_id : String)
    (qty : Int) (customer : String)
    (hbid : book_id ≠ "") (hq : qty ≠ 0) (hcust : customer ≠ "")
    (hcause : get_book s.inventory book_id = none ∨
      ∃ b, get_book s.inventory book_id = some b ∧ b.stock < qty) :
    place_order s (some ⟨some book_id, some qty, some customer⟩) =
      (⟨400, .error "Insufficient stock"⟩, s) :=
  place_order_not_in_stock_eq s book_id qty customer hbid hq hcust
    (is_in_stock_eq_false_of_cause s.inventory book_id qty hcause)

/-- Witness for C2 (amended) at a concrete input: ordering 6 copies of
`"b1"` (stock 5) from the seed state fails with Insufficient stock and
leaves the state untouched. -/
theorem place_order_insufficient_witness :
    place_order seedState (some ⟨some "b1", some 6, some "alice"⟩) =
      (⟨400, .error "Insufficient stock"⟩, seedState) :=
  place_order_insufficient seedState "b1" 6 "alice" (by decide) (by decide)
    (by decide) (Or.inr ⟨⟨"b1", "Clean Code", 5⟩, rfl, by decide⟩)

/-- Counterexample to claim C7 as stated: the pair of requests
`{book_id:"zzz", quantity:0, customer:"alice"}` (book id matching no book
of the seed inventory) and `{book_id:"b1", quantity:6, customer:"bob"}`
(book `"b1"` exists with stock 5 < 6) satisfies the claim's conditions,
yet the responses differ: the first draws the missing-fields error
(0 is falsy), not the insufficient-stock error the second draws. -/
theorem insufficient_causes_cx :
    get_book seedState.inventory "zzz" = none ∧
    (∃ b, get_book seedState.inventory "b1" = some b ∧ b.stock < 6) ∧
    (place_order seedState (some ⟨some "zzz", some 0, some "alice"⟩)).1 =
      ⟨400, .error "Missing fields: book_id, quantity, customer"⟩ ∧
    (place_order seedState (some ⟨some "b1", some 6, some "bob"⟩)).1 =
      ⟨400, .error "Insufficient stock"⟩ ∧
    (place_order seedState (some ⟨some "zzz", some 0, some "alice"⟩)).1 ≠
      (place_order seedState (some ⟨some "b1", some 6, some "bob"⟩)).1 := by
  refine ⟨rfl, ⟨⟨"b1", "Clean Code", 5⟩, rfl, by decide⟩, rfl, rfl, ?_⟩
  decide

/-- Claim C7 (amended): for every pair of requests that pass the
truthiness validation of the three fields, one with an unknown book id
and one with a known book whose stock is below the requested quantity,
`place_order` produces the identical response — both the 400
Insufficient-stock error — so the two causes cannot be told apart. -/
theorem insufficient_causes_indistinguishable (s₁ s₂ : AppState)
    (bid₁ : String) (qty₁ : Int) (cust₁ : String)
    (bid₂ : String) (qty₂ : Int) (cust₂ : String) (b : Book)
    (hbid₁ : bid₁ ≠ "") (hq₁ : qty₁ ≠ 0) (hcust₁ : cust₁ ≠ "")
    (hmissing : get_book s₁.inventory bid₁ = none)
    (hbid₂ : bid₂ ≠ "") (hq₂ : qty₂ ≠ 0) (hcust₂ : cust₂ ≠ "")
    (hfound : get_book s₂.inventory bid₂ = some b) (hlow : b.stock < qty₂) :
    (place_order s₁ (some ⟨some bid₁, some qty₁, some cust₁⟩)).1 =
      (place_order s₂ (some ⟨some bid₂, some qty₂, some cust₂⟩)).1 ∧
    (place_order s₁ (some ⟨some bid₁, some qty₁, some cust₁⟩)).1 =
      ⟨400, .error "Insufficient stock"⟩ := by
  have e₁ := place_order_not_in_stock_eq s₁ bid₁ qty₁ cust₁ hbid₁ hq₁ hcust₁
    (is_in_stock_eq_false_of_cause s₁.inventory bid₁ qty₁ (Or.inl hmissing))
  have e₂ := place_order_not_in_stock_eq s₂ bid₂ qty₂ cust₂ hbid₂ hq₂ hcust₂
    (is_in_stock_eq_false_of_cause s₂.inventory bid₂ qty₂
      (Or.inr ⟨b, hfound, hlow⟩))
  rw [e₁, e₂]
  exact ⟨rfl, rfl⟩

/-- Witness for C7 at concrete inputs: unknown book `"zzz"` versus book
`"b1"` with stock 5 and quantity 6 draw the same response. -/
theorem insufficient_causes_indistinguishable_witness :
    (place_order seedState (some ⟨some "zzz", some 1, some "alice"⟩)).1 =
      (place_order seedState (some ⟨some "b1", some 6, some "bob"⟩)).1 ∧
    (place_order seedState (some ⟨some "zzz", some 1, some "alice"⟩)).1 =
      ⟨400, .error "Insufficient stock"⟩ :=
  insufficient_causes_indistinguishable seedState seedState "zzz" 1 "alice"
    "b1" 6 "bob" ⟨"b1", "Clean Code", 5⟩ (by decide) (by decide) (by decide)
    rfl (by decide) (by decide) (by decide) rfl (by decide)

/-- Claim C10: a request whose body is present but whose `book_id`,
`quantity` or `customer` is present yet falsy (empty string, or 0) gets
the missing-fields 400 with no side effect, the same response as when the
field is absent. -/
theorem place_order_falsy_fields (s : AppState) (d : OrderRequest)
    (h : d.book_id = some "" ∨ d.quantity = some 0 ∨ d.customer = some "") :
    place_order s (some d) =
      (⟨400, .error "Missing fields: book_id, quantity, customer"⟩, s) ∧
    ∀ d₂ : OrderRequest,
      (d₂.book_id = none ∨ d₂.quantity = none ∨ d₂.customer = none) →
      place_order s (some d₂) = place_order s (some d) := by
  have hfalsy : (falsyStr d.book_id || falsyInt d.quantity ||
      falsyStr d.customer) = true := by
    rcases h with h | h | h <;> simp [h, falsyStr, falsyInt]
  have e := place_order_missing_fields_eq s d hfalsy
  refine ⟨e, fun d₂ h₂ => ?_⟩
  have hfalsy₂ : (falsyStr d₂.book_id || falsyInt d₂.quantity ||
      falsyStr d₂.customer) = true := by
    rcases h₂ with h₂ | h₂ | h₂ <;> simp [h₂, falsyStr, falsyInt]
  rw [place_order_missing_fields_eq s d₂ hfalsy₂, e]

/-- Witness for C10 at a concrete input: quantity 0 on the seed state
draws the missing-fields error, identical to an absent quantity. -/
theorem place_order_falsy_fields_witness :
    place_order seedState (some ⟨some "b1", some 0, some "alice"⟩) =
      (⟨400, .error "Missing fields: book_id, quantity, customer"⟩,
        seedState) ∧
    place_order seedState (some ⟨some "b1", none, some "alice"⟩) =
      place_order seedState (some ⟨some "b1", some 0, some "alice"⟩) := by
  have h := place_order_falsy_fields seedState
    ⟨some "b1", some 0, some "alice"⟩ (Or.inr (Or.inl rfl))
  exact ⟨h.1, h.2 ⟨some "b1", none, some "alice"⟩ (Or.inr (Or.inl rfl))⟩

/-- The intermediate states `place_order` passes through, one entry per
executed statement boundary: the entry state; after
`sales.create_order(...)` (sales appended, inventory untouched); after
`inventory.reduce_stock(...)`. Error paths stop at the entry state. -/
def place_order_trace (s : AppState) (data : Option OrderRequest) :
    List AppState :=
  match data with
  | none => [s]
  | some d =>
    if falsyStr d.book_id || falsyInt d.quantity || falsyStr d.customer then
      [s]
    else
      let book_id := d.book_id.getD ""
      let qty := d.quantity.getD 0
      if !is_in_stock s.inventory book_id qty then [s]
      else
        let p := create_order s.sales s.nextUuid book_id qty (d.customer.getD "")
        let s₁ := { s with sales := p.2, nextUuid := s.nextUuid + 1 }
        let s₂ := { s₁ with inventory := reduce_stock s₁.inventory book_id qty }
        [s, s₁, s₂]

/-- Claim C6: on every successful order placement the trace is
entry-state, order-recorded, stock-decremented — the order is appended
while the inventory is still untouched, the final trace state is the
handler's final state, and no trace state has a changed inventory without
the order already in its sales ledger. -/
theorem order_recorded_before_stock_decrement (s : AppState)
    (book_id : String) (qty : Int) (customer : String)
    (hbid : book_id ≠ "") (hq : qty ≠ 0) (hcust : customer ≠ "")
    (hstock : is_in_stock s.inventory book_id qty = true) :
    ∃ o : Order, ∃ s₁ s₂ : AppState,
      place_order_trace s (some ⟨some book_id, some qty, some customer⟩) =
        [s, s₁, s₂] ∧
      (place_order s (some ⟨some book_id, some qty, some customer⟩)).1 =
        ⟨201, .order o⟩ ∧
      s₁.sales = s.sales ++ [o] ∧
      s₁.inventory = s.inventory ∧
      s₂ = (place_order s (some ⟨some book_id, some qty, some customer⟩)).2 ∧
      ∀ t ∈ place_order_trace s (some ⟨some book_id, some qty, some customer⟩),
        t.inventory ≠ s.inventory → o ∈ t.sales := by
  have h1 : falsyStr (some book_id) = false := by simp [falsyStr, hbid]
  have h2 : falsyInt (some qty) = false := by simp [falsyInt, hq]
  have h3 : falsyStr (some customer) = false := by simp [falsyStr, hcust]
  refine ⟨⟨uuidString s.nextUuid, book_id, qty, customer, "PAID"⟩,
    { s with
        sales := s.sales ++
          [⟨uuidString s.nextUuid, book_id, qty, customer, "PAID"⟩],
        nextUuid := s.nextUuid + 1 },
    { s with
        sales := s.sales ++
          [⟨uuidString s.nextUuid, book_id, qty, customer, "PAID"⟩],
        nextUuid := s.nextUuid + 1,
        inventory := reduce_stock s.inventory book_id qty },
    ?_, ?_, rfl, rfl, ?_, ?_⟩
  · simp [place_order_trace, h1, h2, h3, hstock, create_order]
  · simp [place_order, h1, h2, h3, hstock, create_order]
  · simp [place_order, h1, h2, h3, hstock, create_order]
  · intro t ht hinv
    simp [place_order_trace, h1, h2, h3, hstock, create_order] at ht
    rcases ht with ht | ht | ht <;> subst ht
    · exact absurd rfl hinv
    · simp
    · simp

/-- Witness for C6 at the running example: ordering 5 copies of `"b1"`
from the seed state. -/
theorem order_recorded_before_stock_decrement_witness :
    ∃ o : Order, ∃ s₁ s₂ : AppState,
      place_order_trace seedState (some ⟨some "b1", some 5, some "alice"⟩) =
        [seedState, s₁, s₂] ∧
      (place_order seedState (some ⟨some "b1", some 5, some "alice"⟩)).1 =
        ⟨201, .order o⟩ ∧
      s₁.sales = seedState.sales ++ [o] ∧
      s₁.inventory = seedState.inventory ∧
      s₂ = (place_order seedState (some ⟨some "b1", some 5, some "alice"⟩)).2 ∧
      ∀ t ∈ place_order_trace seedState
          (some ⟨some "b1", some 5, some "alice"⟩),
        t.inventory ≠ seedState.inventory → o ∈ t.sales :=
  order_recorded_before_stock_decrement seedState "b1" 5 "alice" (by decide)
    (by decide) (by decide) (by decide)

/-- Claim C8: every protected route called with an absent or wrong
`x-api-key` header answers 401 Unauthorized and leaves the state
untouched, while the home route answers 200 with no key at all. -/
theorem auth_guards_protected_routes (api_key : String)
    (header : Option String) (s : AppState) :
    (∀ r : Route, isProtected r = true → header ≠ some api_key →
      handle api_key header r s =
        (⟨401, .error "Unauthorized - Invalid API Key"⟩, s)) ∧
    handle api_key header .homeRoute s =
      (⟨200, .message "Bookstore Integration API Running"⟩, s) := by
  constructor
  · intro r _ hk
    have hkey : (header == some api_key) = false := by simpa using hk
    cases r with
    | homeRoute => simp [isProtected] at *
    | getAllBooks => simp [handle, require_api_key, hkey]
    | getBookDetails bid => simp [handle, require_api_key, hkey]
    | placeOrder d => simp [handle, require_api_key, hkey]
    | updateDelivery d => simp [handle, require_api_key, hkey]
  · rfl

/-- Witness for C8 at a concrete input: a keyless request to
`GET /api/books` on the seed state is refused with 401 unchanged. -/
theorem auth_guards_protected_routes_witness :
    handle "secret" none .getAllBooks seedState =
      (⟨401, .error "Unauthorized - Invalid API Key"⟩, seedState) :=
  (auth_guards_protected_routes "secret" none seedState).1 .getAllBooks rfl
    (by simp)

theorem reduce_stock_nonneg (inventory : List Book) (book_id : String)
    (qty : Int) (hstock : is_in_stock inventory book_id qty = true)
    (h : ∀ b ∈ inventory, 0 ≤ b.stock) :
    ∀ b ∈ reduce_stock inventory book_id qty, 0 ≤ b.stock := by
  induction inventory with
  | nil => simp [reduce_stock]
  | cons c rest ih =>
    by_cases hc : c.id = book_id
    · have hqle : qty ≤ c.stock := by
        simpa [is_in_stock, get_book, List.find?_cons, hc] using hstock
      intro b hb
      simp [reduce_stock, hc] at hb
      rcases hb with hb | hb
      · subst hb
        simpa using by omega
      · exact h b (by simp [hb])
    · intro b hb
      simp [reduce_stock, hc] at hb
      rcases hb with hb | hb
      · subst hb
        exact h b (by simp)
      · have hstock₂ : is_in_stock rest book_id qty = true := by
          simpa [is_in_stock, get_book, List.find?_cons, hc] using hstock
        exact ih hstock₂ (fun x hx => h x (by simp [hx])) b hb

theorem place_order_preserves_nonneg (s : AppState)
    (data : Option OrderRequest) (h : stocksNonneg s) :
    stocksNonneg (place_order s data).2 := by
  match data with
  | none => exact h
  | some d =>
    simp only [place_order]
    split
    · exact h
    · split
      · exact h
      · rename_i hins
        simp only [Bool.not_eq_true', Bool.not_eq_false] at hins
        intro b hb
        exact reduce_stock_nonneg s.inventory (d.book_id.getD "")
          (d.quantity.getD 0) hins h b hb

theorem update_delivery_inventory_eq (s : AppState)
    (data : Option DeliveryRequest) :
    (update_delivery s data).2.inventory = s.inventory := by
  match data with
  | none => rfl
  | some d =>
    simp only [update_delivery]
    split <;> rfl

theorem get_book_details_state_eq (s : AppState) (book_id : String) :
    (get_book_details s book_id).2 = s := by
  unfold get_book_details
  split <;> rfl

theorem handle_preserves_nonneg (api_key : String) (header : Option String)
    (r : Route) (s : AppState) (h : stocksNonneg s) :
    stocksNonneg (handle api_key header r s).2 := by
  cases r with
  | getAllBooks =>
    simp only [handle, require_api_key]
    split <;> exact h
  | getBookDetails bid =>
    simp only [handle, require_api_key]
    split
    · rw [get_book_details_state_eq]; exact h
    · exact h
  | placeOrder d =>
    simp only [handle, require_api_key]
    split
    · exact place_order_preserves_nonneg s d h
    · exact h
  | updateDelivery d =>
    simp only [handle, require_api_key]
    split
    · intro b hb
      rw [update_delivery_inventory_eq] at hb
      exact h b hb
    · exact h
  | homeRoute => exact h

/-- Claim C3: starting from any state with all stocks non-negative (the
seed data), no sequence of requests through the app's routes ever drives
a book's stock negative. -/
theorem run_preserves_stocksNonneg (api_key : String) (s : AppState)
    (reqs : List (Option String × Route)) (h : stocksNonneg s) :
    stocksNonneg (run api_key s reqs) := by
  induction reqs generalizing s with
  | nil => exact h
  | cons p rest ih =>
    exact ih ((handle api_key p.1 p.2 s).2)
      (handle_preserves_nonneg api_key p.1 p.2 s h)

/-- Witness for C3 at a concrete input: from the seed state, a successful
order for all 5 copies of `"b1"` followed by a failing one leaves all
stocks non-negative. -/
theorem run_preserves_stocksNonneg_witness :
    stocksNonneg (run "secret" seedState
      [(some "secret", .placeOrder (some ⟨some "b1", some 5, some "alice"⟩)),
       (some "secret", .placeOrder (some ⟨some "b1", some 1, some "bob"⟩))]) :=
  run_preserves_stocksNonneg "secret" seedState
    [(some "secret", .placeOrder (some ⟨some "b1", some 5, some "alice"⟩)),
     (some "secret", .placeOrder (some ⟨some "b1", some 1, some "bob"⟩))]
    (by decide)

/-- Claim C4 is violated by the code (code bug): `place_order` accepts a
negative quantity — only `None` and `0` are rejected by the truthiness
check and `is_in_stock` compares `stock ≥ qty`, true for any negative
`qty` — so an order with quantity `-1` is created, recorded in the sales
ledger, and the stock of `"b1"` rises from 5 to 6. -/
theorem place_order_accepts_negative_quantity :
    (place_order seedState (some ⟨some "b1", some (-1), some "alice"⟩)).1.status
      = 201 ∧
    ((place_order seedState
        (some ⟨some "b1", some (-1), some "alice"⟩)).2.sales.map
      Order.quantity) = [-1] ∧
    get_book (place_order seedState
        (some ⟨some "b1", some (-1), some "alice"⟩)).2.inventory "b1" =
      some ⟨"b1", "Clean Code", 6⟩ :=
  ⟨rfl, rfl, rfl⟩

end Bookstore
